import Mathlib

/-!
Verification of the glone multi-repository synchronizer against its design
specification. The Rust sources (`src/config.rs`, `src/git.rs`, `src/main.rs`)
are shallowly embedded: panicking computations (`panic!`, `unwrap`, `todo!`)
return `PanicOr`, fallible git2 calls return `Except`, and the external git2
library (repository object store, merge analysis, tree merging, remote
transport) is represented by explicit state (`Repo`) plus oracle records
(`MergeWorld`, `PullWorld`, `CloneWorld`) supplying the library's answers.
-/

namespace Glone

/-- Commit and tree object ids are modelled as natural numbers. -/
abbrev Oid := Nat

/-- Error codes of the external git2 library (`git2::Error`). -/
abbrev GitError := Nat

/-- Result of a Rust computation that may panic (`panic!`, `.unwrap()`,
`todo!()`): a panic unwinds through `main` and aborts the run. -/
inductive PanicOr (α : Type) where
  | panicked : PanicOr α
  | ok : α → PanicOr α
deriving DecidableEq

/-- Process environment: variable name to value (`std::env::var`). -/
abbrev Env := String → Option String

/-- Rust `str::starts_with('_')` specialised to a single pattern character:
true exactly when the first character of the string equals `c`. -/
def startsWithChar (c : Char) (s : String) : Bool :=
  match s.data with
  | [] => false
  | d :: _ => d = c

/-- The `AuthType` enum of `config.rs`. -/
inductive AuthType where
  | Token
  | Ssh
  | Public
deriving DecidableEq

/-- The `Auth` struct of `config.rs`: a variant tag plus three optional
fields, of which the active variant determines which are dereferenced. -/
structure Auth where
  type : AuthType
  username : Option String
  password : Option String
  path : Option String
deriving DecidableEq

/-- The `Provider` struct of `config.rs`. -/
structure Provider where
  name : String
  url : String
  branch : String
  sync_dir : String
  auth : Auth
deriving DecidableEq

/-- `Auth::is_valid_cred`: `self.username.as_ref().unwrap().starts_with('_')
&& self.password.as_ref().unwrap().starts_with('_')`. The `unwrap` on a
missing field panics; `&&` short-circuits, so a username without the prefix
never dereferences the password. -/
def Auth.is_valid_cred (a : Auth) : PanicOr Bool :=
  match a.username with
  | none => .panicked
  | some u =>
    if startsWithChar '_' u then
      match a.password with
      | none => .panicked
      | some p => .ok (startsWithChar '_' p)
    else
      .ok false

/-- `Auth::get_username`: `env::var(self.username.as_ref().unwrap()).unwrap()`.
Panics on a missing field and panics again when the environment variable is
unset. -/
def Auth.get_username (a : Auth) (env : Env) : PanicOr String :=
  match a.username with
  | none => .panicked
  | some n =>
    match env n with
    | none => .panicked
    | some v => .ok v

/-- `Auth::get_password`: `env::var(self.password.as_ref().unwrap()).unwrap()`. -/
def Auth.get_password (a : Auth) (env : Env) : PanicOr String :=
  match a.password with
  | none => .panicked
  | some n =>
    match env n with
    | none => .panicked
    | some v => .ok v

/-- `Auth::get_ssh_path` as written in `config.rs` (the revision used by
`git.rs`): `self.path.as_ref().unwrap()`. -/
def Auth.get_ssh_path (a : Auth) : PanicOr String :=
  match a.path with
  | none => .panicked
  | some s => .ok s

/-- `Auth::get_ssh_path` as written in the inlined `config` module of
`main.rs`: `self.password.as_ref().unwrap()`. -/
def Auth.get_ssh_path_main (a : Auth) : PanicOr String :=
  match a.password with
  | none => .panicked
  | some s => .ok s

/-- The `Config` struct: a list of providers. -/
structure Config where
  providers : List Provider
deriving DecidableEq

/-- `Config::get_providers`. -/
def Config.get_providers (c : Config) : List Provider := c.providers

/-! ## Repository state

The parts of the external git2 repository that the synchronizer reads and
writes: the commit store, the references, the symbolic `HEAD`, and the
working tree. Checkout strategies applied to the working tree are recorded
so that force / allow-conflicts / safe checkouts are distinguishable. -/

/-- Association-list lookup on the first component. -/
def alookup {α β : Type} [DecidableEq α] (k : α) : List (α × β) → Option β
  | [] => none
  | (a, b) :: rest => if a = k then some b else alookup k rest

/-- Association-list update: overwrites the binding of `k`, or appends one. -/
def aset {α β : Type} [DecidableEq α] (k : α) (v : β) : List (α × β) → List (α × β)
  | [] => [(k, v)]
  | (a, b) :: rest => if a = k then (a, v) :: rest else (a, b) :: aset k v rest

theorem alookup_aset_self {α β : Type} [DecidableEq α] (k : α) (v : β)
    (l : List (α × β)) : alookup k (aset k v l) = some v := by
  induction l with
  | nil => simp [alookup, aset]
  | cons hd tl ih =>
    obtain ⟨a, b⟩ := hd
    by_cases h : a = k
    · simp [alookup, aset, h]
    · simp [alookup, aset, h, ih]

/-- A commit object: parent ids, root tree id, commit message. -/
structure CommitData where
  parents : List Oid
  tree : Nat
  message : String
deriving DecidableEq

/-- The in-memory index produced by `git2 merge_trees`: whether it has
conflicts, and the tree id `write_tree_to` would produce from it. -/
structure MergeIndex where
  hasConflicts : Bool
  writeTree : Nat
deriving DecidableEq

/-- The working tree: either the checkout of a tree object, or the
conflict-marker state materialized by `checkout_index` from a conflicted
merge index. -/
inductive WorkTree where
  | tree : Nat → WorkTree
  | checkedOutIndex : MergeIndex → WorkTree
deriving DecidableEq

/-- The checkout strategy used by each `checkout_head` / `checkout_index`
call in `git.rs`: `CheckoutBuilder::default().force()`, the unborn-branch
variant `.allow_conflicts(true).conflict_style_merge(true).force()`, the
default (safe) checkout of `normal_merge`, and `checkout_index`. -/
inductive CheckoutMode where
  | force
  | forceAllowConflicts
  | safe
  | index
deriving DecidableEq

/-- Local repository state. -/
structure Repo where
  commits : List (Oid × CommitData)
  refs : List (String × Oid)
  head : Option String
  workTree : WorkTree
  checkouts : List CheckoutMode
deriving DecidableEq

/-- The two flags of `git2 merge_analysis` that `merge` in `git.rs`
inspects, in its order: `is_fast_forward`, then `is_normal`. -/
structure MergeAnalysisFlags where
  isFastForward : Bool
  isNormal : Bool
deriving DecidableEq

/-- Answers of the external git2 library consumed by `merge` and
`normal_merge`: the merge analysis of the fetched commit, the merge base,
the result of `merge_trees`, the configured signature, and the id the
object store assigns to a newly written merge commit. -/
structure MergeWorld where
  analysis : Except GitError MergeAnalysisFlags
  mergeBase : Oid → Oid → Except GitError Oid
  mergeTrees : Nat → Nat → Nat → Except GitError MergeIndex
  signatureResult : Except GitError Unit
  freshOid : Oid

/-- Resolution of `repo.head()`: the symbolic `HEAD` followed through the
reference it names, to a commit id. -/
def resolveHead (repo : Repo) : Except GitError Oid :=
  match repo.head with
  | none => .error 20
  | some r =>
    match alookup r repo.refs with
    | none => .error 21
    | some oid => .ok oid

/-- `repo.checkout_head(...)`: updates the working tree to the tree of the
commit `HEAD` resolves to, recording the checkout strategy used. -/
def checkout_head (mode : CheckoutMode) (repo : Repo) : Except GitError Repo :=
  match repo.head with
  | none => .error 10
  | some r =>
    match alookup r repo.refs with
    | none => .error 11
    | some oid =>
      match alookup oid repo.commits with
      | none => .error 12
      | some c =>
        .ok { repo with workTree := WorkTree.tree c.tree,
                        checkouts := repo.checkouts ++ [mode] }

/-- `fast_forward` of `git.rs`: `lb.set_target(rc.id(), &msg)`,
`repo.set_head(&name)`, then a force checkout of `HEAD`. -/
def fast_forward (repo : Repo) (lbName : String) (rcId : Oid) :
    Except GitError Repo :=
  checkout_head .force
    { repo with refs := aset lbName rcId repo.refs, head := some lbName }

/-- `repo.commit(Some("HEAD"), sig, sig, msg, tree, parents)`: writes a new
commit object and moves the reference `HEAD` points to onto it. -/
def commitOnHead (repo : Repo) (newId : Oid) (msg : String) (tree : Nat)
    (parents : List Oid) : Except GitError Repo :=
  match repo.head with
  | none => .error 40
  | some r =>
    match alookup r repo.refs with
    | none => .error 41
    | some _ =>
      .ok { repo with
        commits := (newId, { parents := parents, tree := tree, message := msg })
          :: repo.commits,
        refs := aset r newId repo.refs }

/-- The message of the merge commit built in `normal_merge`:
`format!("Merge: {} into {}", remote.id(), local.id())`. -/
def mergeCommitMessage (remoteId localId : Oid) : String :=
  "Merge: " ++ toString remoteId ++ " into " ++ toString localId

/-- Outcome tag mirroring which control-flow branch of `merge` /
`normal_merge` returned. -/
inductive MergeOutcome where
  | fastForwarded
  | unbornSet
  | conflict
  | merged : Oid → MergeOutcome
  | nothingToDo
deriving DecidableEq

/-- `normal_merge` of `git.rs`: three-way merge of the local and remote
trees against their merge base. A conflicted index is checked out onto the
working tree and the function returns early with no commit; otherwise a
merge commit with parents `[local, remote]` is written on `HEAD` and the
working tree is checked out (default strategy) to match it. -/
def normal_merge (repo : Repo) (localId remoteId : Oid) (w : MergeWorld) :
    Except GitError (Repo × MergeOutcome) :=
  match alookup localId repo.commits with
  | none => .error 30
  | some lc =>
    match alookup remoteId repo.commits with
    | none => .error 31
    | some rc =>
      match w.mergeBase localId remoteId with
      | .error e => .error e
      | .ok baseId =>
        match alookup baseId repo.commits with
        | none => .error 32
        | some bc =>
          match w.mergeTrees bc.tree lc.tree rc.tree with
          | .error e => .error e
          | .ok idx =>
            if idx.hasConflicts then
              .ok ({ repo with workTree := WorkTree.checkedOutIndex idx,
                               checkouts := repo.checkouts ++ [CheckoutMode.index] },
                   MergeOutcome.conflict)
            else
              match w.signatureResult with
              | .error e => .error e
              | .ok _ =>
                match commitOnHead repo w.freshOid
                    (mergeCommitMessage remoteId localId) idx.writeTree
                    [localId, remoteId] with
                | .error e => .error e
                | .ok repo1 =>
                  match checkout_head .safe repo1 with
                  | .error e => .error e
                  | .ok repo2 => .ok (repo2, MergeOutcome.merged w.freshOid)

/-- `merge` of `git.rs`: classify via `merge_analysis`; fast-forward the
branch reference if it exists, create it (then set head and check out with
conflicts allowed and force) if it does not; three-way merge on the
`is_normal` classification; otherwise nothing to do. -/
def merge (repo : Repo) (remote_branch : String) (fetch_commit : Oid)
    (w : MergeWorld) : Except GitError (Repo × MergeOutcome) :=
  match w.analysis with
  | .error e => .error e
  | .ok analysis =>
    if analysis.isFastForward then
      match alookup ("refs/heads/" ++ remote_branch) repo.refs with
      | some _ =>
        match fast_forward repo ("refs/heads/" ++ remote_branch) fetch_commit with
        | .error e => .error e
        | .ok r => .ok (r, MergeOutcome.fastForwarded)
      | none =>
        match checkout_head .forceAllowConflicts
            { repo with
              refs := aset ("refs/heads/" ++ remote_branch) fetch_commit repo.refs,
              head := some ("refs/heads/" ++ remote_branch) } with
        | .error e => .error e
        | .ok r => .ok (r, MergeOutcome.unbornSet)
    else if analysis.isNormal then
      match resolveHead repo with
      | .error e => .error e
      | .ok headOid => normal_merge repo headOid fetch_commit w
    else
      .ok (repo, MergeOutcome.nothingToDo)

/-! ## Credential strategies and the clone path -/

/-- A credential value produced by the installed strategy at challenge
time: `Cred::userpass_plaintext` or `Cred::ssh_key` (fixed absent
passphrase). -/
inductive Cred where
  | userpassPlaintext : String → String → Cred
  | sshKey : String → String → Cred
deriving DecidableEq

/-- The credentials closure `clone` installs on the transport callbacks; it
captures the provider's `Auth` and dereferences it only when invoked. -/
inductive CredStrategy where
  | tokenCreds : Auth → CredStrategy
  | sshCreds : Auth → CredStrategy
deriving DecidableEq

/-- The strategy installation step of `clone` in `git.rs`: match on the
auth variant; for `Token` install the username/password closure only if
`is_valid_cred()` (whose `unwrap`s may panic); for `Ssh` always install the
key closure; for `Public` install nothing. -/
def installStrategy (a : Auth) : PanicOr (Option CredStrategy) :=
  match a.type with
  | .Token =>
    match a.is_valid_cred with
    | .panicked => .panicked
    | .ok true => .ok (some (.tokenCreds a))
    | .ok false => .ok none
  | .Ssh => .ok (some (.sshCreds a))
  | .Public => .ok none

/-- One invocation of the installed credentials closure by the transport.
Returns the credential (or a panic, from the `unwrap`s in `get_username`,
`get_password`, `username_from_url.unwrap()` and `get_ssh_path`) together
with the list of environment variables read, in evaluation order. -/
def runChallenge (s : CredStrategy) (env : Env)
    (username_from_url : Option String) : PanicOr Cred × List String :=
  match s with
  | .tokenCreds a =>
    match a.username with
    | none => (.panicked, [])
    | some un =>
      match env un with
      | none => (.panicked, [un])
      | some uv =>
        match a.password with
        | none => (.panicked, [un])
        | some pn =>
          match env pn with
          | none => (.panicked, [un, pn])
          | some pv => (.ok (.userpassPlaintext uv pv), [un, pn])
  | .sshCreds a =>
    match username_from_url with
    | none => (.panicked, [])
    | some u =>
      match a.get_ssh_path with
      | .panicked => (.panicked, [])
      | .ok keyPath => (.ok (.sshKey u keyPath), [])

/-- External behavior of the transport during `RepoBuilder::clone`: whether
it challenges for credentials, the username it derives from the URL, and
the result of the underlying clone operation (which `clone` in `git.rs`
discards with `let _ =`). -/
structure CloneWorld where
  challenges : Bool
  usernameFromUrl : Option String
  cloneOpResult : Except GitError Unit

/-- `clone` of `git.rs`: install the credential strategy per the auth
variant, hand it to the transport, and run the builder, whose `Result` is
discarded. Returns the run's panic-or-unit value together with the
environment variables read (reads happen only inside a challenge). -/
def clone (p : Provider) (env : Env) (w : CloneWorld) :
    PanicOr Unit × List String :=
  match installStrategy p.auth with
  | .panicked => (.panicked, [])
  | .ok (some s) =>
    if w.challenges then
      match runChallenge s env w.usernameFromUrl with
      | (.panicked, reads) => (.panicked, reads)
      | (.ok _, reads) => (.ok (), reads)
    else
      (.ok (), [])
  | .ok none => (.ok (), [])

/-! ## The pull path and the orchestrator -/

/-- External answers consumed by `pull`: the result of `Repository::open`,
of `repo.find_remote("origin")`, and of `fetch` (the annotated commit id
resolved from `FETCH_HEAD`). -/
structure PullWorld where
  openResult : Except GitError Repo
  findRemoteOk : Bool
  fetchResult : Except GitError Oid

/-- `pull` of `git.rs`: `Repository::open` failure panics;
`find_remote("origin").unwrap()` panics on failure; `fetch(...).unwrap()`
panics on failure; the merge result is discarded with `let _ =`. -/
def pull (p : Provider) (pw : PullWorld) (mw : MergeWorld) : PanicOr Unit :=
  match pw.openResult with
  | .error _ => .panicked
  | .ok repo =>
    if pw.findRemoteOk then
      match pw.fetchResult with
      | .error _ => .panicked
      | .ok fetchId =>
        let _ := merge repo p.branch fetchId mw
        .ok ()
    else
      .panicked

/-- Filesystem probes used by `download`: `Path::exists` and `Path::is_dir`. -/
structure Fs where
  pathExists : String → Bool
  isDir : String → Bool

/-- Which branch of `download` ran. -/
inductive SyncPath where
  | pullPath
  | clonePath
deriving DecidableEq

/-- `download` of `git.rs`: probe `sync_dir`; an existing directory goes to
`pull`, anything else to `clone`. The returned tag records which branch
ran. -/
def download (p : Provider) (env : Env) (fs : Fs) (pw : PullWorld)
    (mw : MergeWorld) (cw : CloneWorld) : SyncPath × PanicOr Unit :=
  if fs.pathExists p.sync_dir && fs.isDir p.sync_dir then
    (SyncPath.pullPath, pull p pw mw)
  else
    (SyncPath.clonePath, (clone p env cw).1)

/-- The provider loop of `main`: `for provider in providers { download }`.
A panic unwinds out of the loop and aborts the run. -/
def runLoop (run : Provider → PanicOr Unit) : List Provider → PanicOr Unit
  | [] => .ok ()
  | p :: rest =>
    match run p with
    | .panicked => .panicked
    | .ok _ => runLoop run rest

/-- The provider loop again, instrumented to list the names of the
providers whose synchronization was started before the run ended. -/
def runLoopTrace (run : Provider → PanicOr Unit) :
    List Provider → List String
  | [] => []
  | p :: rest =>
    match run p with
    | .panicked => [p.name]
    | .ok _ => p.name :: runLoopTrace run rest

/-- The `match glone_options.config` of `main`: a loaded config drives the
provider loop; `None` hits `todo!()`, which panics. -/
def mainRun (cfg : Option Config) (run : Provider → PanicOr Unit) :
    PanicOr Unit :=
  match cfg with
  | some config => runLoop run config.get_providers
  | none => .panicked

/-- `GloneOptions::load_config`: a read failure, an empty file, or a parse
failure leave `self.config` unchanged (it starts as `None`); only a
successful parse stores `Some(conf)`. The YAML parser is an oracle. -/
def load_config (readResult : Except GitError String)
    (parse : String → Except GitError Config) (current : Option Config) :
    Option Config :=
  match readResult with
  | .ok c =>
    if c.length == 0 then
      current
    else
      match parse c with
      | .ok conf => some conf
      | .error _ => current
  | .error _ => current

/-! ## Claims -/

/-- C1: for every provider, `download` runs the pull path exactly when the
`sync_dir` probe (exists and is a directory) holds and the clone path
otherwise; the two paths are mutually exclusive in one invocation, the
probe is the sole deciding condition (the outcome tag is independent of the
environment and of every external oracle), and each branch's result is
exactly the corresponding sub-operation's result. -/
theorem download_path_decision (p : Provider) (env env2 : Env) (fs : Fs)
    (pw pw2 : PullWorld) (mw mw2 : MergeWorld) (cw cw2 : CloneWorld) :
    ((download p env fs pw mw cw).1 = SyncPath.pullPath
      ↔ (fs.pathExists p.sync_dir && fs.isDir p.sync_dir) = true)
    ∧ ((download p env fs pw mw cw).1 = SyncPath.clonePath
      ↔ (fs.pathExists p.sync_dir && fs.isDir p.sync_dir) = false)
    ∧ (download p env fs pw mw cw).1 = (download p env2 fs pw2 mw2 cw2).1
    ∧ download p env fs pw mw cw
      = (if (fs.pathExists p.sync_dir && fs.isDir p.sync_dir) = true then
          (SyncPath.pullPath, pull p pw mw)
        else
          (SyncPath.clonePath, (clone p env cw).1)) := by
  cases h : fs.pathExists p.sync_dir && fs.isDir p.sync_dir <;>
    simp [download, h]

/-- C10: `download` discards the underlying operation results. The clone
builder's `Result` is ignored (`clone`'s observable behavior is identical
for every value of it), and after a successful open, remote lookup and
fetch, `pull` returns unit whatever the merge result is, with no
distinction between merge success and failure observable by the caller. -/
theorem download_results_discarded (p : Provider) (env : Env)
    (cw : CloneWorld) (r : Except GitError Unit) (repo : Repo)
    (fetchId : Oid) (mw mw2 : MergeWorld) (fs : Fs) :
    clone p env { cw with cloneOpResult := r } = clone p env cw
    ∧ pull p { openResult := .ok repo, findRemoteOk := true,
               fetchResult := .ok fetchId } mw = .ok ()
    ∧ pull p { openResult := .ok repo, findRemoteOk := true,
               fetchResult := .ok fetchId } mw
      = pull p { openResult := .ok repo, findRemoteOk := true,
                 fetchResult := .ok fetchId } mw2
    ∧ (download p env fs { openResult := .ok repo, findRemoteOk := true,
                           fetchResult := .ok fetchId } mw cw).2
      = (download p env fs { openResult := .ok repo, findRemoteOk := true,
                             fetchResult := .ok fetchId } mw2
            { cw with cloneOpResult := r }).2 := by
  refine ⟨rfl, rfl, rfl, ?_⟩
  cases h : fs.pathExists p.sync_dir && fs.isDir p.sync_dir <;>
    simp [download, h] <;> rfl

/-- C2: when merge analysis classifies fast-forward and the fetched commit
is in the store, `merge` with an existing local branch reference moves that
reference to the fetched commit id, sets it as head, and force-checks-out
the working tree to the fetched commit's tree (whatever the working tree
held before — uncommitted modifications included); when the reference does
not exist (the unborn case) it is created pointing at the fetched commit,
set as head, and the working tree is checked out force-with-conflicts-
allowed-and-flagged. Commits are unchanged in both cases. -/
theorem merge_fast_forward_spec (repo : Repo) (br : String) (fetchId : Oid)
    (w : MergeWorld) (flags : MergeAnalysisFlags) (c : CommitData)
    (han : w.analysis = Except.ok flags)
    (hff : flags.isFastForward = true)
    (hc : alookup fetchId repo.commits = some c) :
    (∀ curId, alookup ("refs/heads/" ++ br) repo.refs = some curId →
      merge repo br fetchId w
        = Except.ok ({ repo with
            refs := aset ("refs/heads/" ++ br) fetchId repo.refs,
            head := some ("refs/heads/" ++ br),
            workTree := WorkTree.tree c.tree,
            checkouts := repo.checkouts ++ [CheckoutMode.force] },
          MergeOutcome.fastForwarded))
    ∧ (alookup ("refs/heads/" ++ br) repo.refs = none →
      merge repo br fetchId w
        = Except.ok ({ repo with
            refs := aset ("refs/heads/" ++ br) fetchId repo.refs,
            head := some ("refs/heads/" ++ br),
            workTree := WorkTree.tree c.tree,
            checkouts := repo.checkouts ++ [CheckoutMode.forceAllowConflicts] },
          MergeOutcome.unbornSet)) := by
  constructor
  · intro curId hcur
    simp [merge, fast_forward, checkout_head, han, hff, hcur,
      alookup_aset_self, hc]
  · intro hnone
    simp [merge, checkout_head, han, hff, hnone, alookup_aset_self, hc]

/-- Concrete fast-forward run discharging the hypotheses of
`merge_fast_forward_spec`: a two-commit repository whose `main` is at the
first commit fast-forwards to the fetched second commit. -/
theorem merge_fast_forward_spec_witness :
    merge
      { commits := [(1, { parents := [], tree := 10, message := "init" }),
                    (2, { parents := [1], tree := 20, message := "second" })],
        refs := [("refs/heads/main", 1)],
        head := some "refs/heads/main",
        workTree := WorkTree.tree 10,
        checkouts := [] }
      "main" 2
      { analysis := Except.ok { isFastForward := true, isNormal := false },
        mergeBase := fun _ _ => Except.error 0,
        mergeTrees := fun _ _ _ => Except.error 0,
        signatureResult := Except.ok (),
        freshOid := 0 }
      = Except.ok
          ({ commits := [(1, { parents := [], tree := 10, message := "init" }),
                         (2, { parents := [1], tree := 20, message := "second" })],
             refs := [("refs/heads/main", 2)],
             head := some "refs/heads/main",
             workTree := WorkTree.tree 20,
             checkouts := [CheckoutMode.force] },
           MergeOutcome.fastForwarded) := by
  have h := merge_fast_forward_spec
    { commits := [(1, { parents := [], tree := 10, message := "init" }),
                  (2, { parents := [1], tree := 20, message := "second" })],
      refs := [("refs/heads/main", 1)],
      head := some "refs/heads/main",
      workTree := WorkTree.tree 10,
      checkouts := [] }
    "main" 2
    { analysis := Except.ok { isFastForward := true, isNormal := false },
      mergeBase := fun _ _ => Except.error 0,
      mergeTrees := fun _ _ _ => Except.error 0,
      signatureResult := Except.ok (),
      freshOid := 0 }
    { isFastForward := true, isNormal := false }
    { parents := [1], tree := 20, message := "second" }
    rfl rfl (by decide)
  exact h.1 1 (by decide)

/-- C3: on the normal (divergent) classification, when the three-way tree
merge of local and fetched trees against their merge base reports
conflicts, `merge` updates only the working tree (to the conflicted index
state) and the checkout record, creates no merge commit, leaves every
reference and the head unchanged, and returns the conflict outcome of that
single invocation. -/
theorem merge_conflict_spec (repo : Repo) (br hr : String)
    (fetchId localId baseId : Oid) (w : MergeWorld)
    (flags : MergeAnalysisFlags) (lc rc bc : CommitData) (idx : MergeIndex)
    (han : w.analysis = Except.ok flags)
    (hff : flags.isFastForward = false)
    (hn : flags.isNormal = true)
    (hhead : repo.head = some hr)
    (href : alookup hr repo.refs = some localId)
    (hlc : alookup localId repo.commits = some lc)
    (hrc : alookup fetchId repo.commits = some rc)
    (hbase : w.mergeBase localId fetchId = Except.ok baseId)
    (hbc : alookup baseId repo.commits = some bc)
    (hidx : w.mergeTrees bc.tree lc.tree rc.tree = Except.ok idx)
    (hconf : idx.hasConflicts = true) :
    merge repo br fetchId w
      = Except.ok ({ repo with
          workTree := WorkTree.checkedOutIndex idx,
          checkouts := repo.checkouts ++ [CheckoutMode.index] },
        MergeOutcome.conflict) := by
  simp [merge, resolveHead, normal_merge, han, hff, hn, hhead, href, hlc,
    hrc, hbase, hbc, hidx, hconf]

/-- Concrete conflicted merge discharging the hypotheses of
`merge_conflict_spec`: two branches diverged from commit 1, the oracle
merge of trees 20 and 30 against tree 10 reports conflicts, and the run
ends in the conflicted working tree with no new commit. -/
theorem merge_conflict_spec_witness :
    merge
      { commits := [(1, { parents := [], tree := 10, message := "init" }),
                    (2, { parents := [1], tree := 20, message := "local" }),
                    (3, { parents := [1], tree := 30, message := "remote" })],
        refs := [("refs/heads/main", 2)],
        head := some "refs/heads/main",
        workTree := WorkTree.tree 20,
        checkouts := [] }
      "main" 3
      { analysis := Except.ok { isFastForward := false, isNormal := true },
        mergeBase := fun _ _ => Except.ok 1,
        mergeTrees := fun _ _ _ =>
          Except.ok { hasConflicts := true, writeTree := 99 },
        signatureResult := Except.ok (),
        freshOid := 7 }
      = Except.ok
          ({ commits := [(1, { parents := [], tree := 10, message := "init" }),
                         (2, { parents := [1], tree := 20, message := "local" }),
                         (3, { parents := [1], tree := 30, message := "remote" })],
             refs := [("refs/heads/main", 2)],
             head := some "refs/heads/main",
             workTree := WorkTree.checkedOutIndex
               { hasConflicts := true, writeTree := 99 },
             checkouts := [CheckoutMode.index] },
           MergeOutcome.conflict) := by
  exact merge_conflict_spec
    { commits := [(1, { parents := [], tree := 10, message := "init" }),
                  (2, { parents := [1], tree := 20, message := "local" }),
                  (3, { parents := [1], tree := 30, message := "remote" })],
      refs := [("refs/heads/main", 2)],
      head := some "refs/heads/main",
      workTree := WorkTree.tree 20,
      checkouts := [] }
    "main" "refs/heads/main" 3 2 1
    { analysis := Except.ok { isFastForward := false, isNormal := true },
      mergeBase := fun _ _ => Except.ok 1,
      mergeTrees := fun _ _ _ =>
        Except.ok { hasConflicts := true, writeTree := 99 },
      signatureResult := Except.ok (),
      freshOid := 7 }
    { isFastForward := false, isNormal := true }
    { parents := [1], tree := 20, message := "local" }
    { parents := [1], tree := 30, message := "remote" }
    { parents := [], tree := 10, message := "init" }
    { hasConflicts := true, writeTree := 99 }
    rfl rfl rfl rfl (by decide) (by decide) (by decide) rfl (by decide)
    rfl rfl

/-- C4: on the normal (divergent) classification, when the three-way tree
merge reports no conflicts, `merge` writes exactly one new commit whose
parents are the prior local head and the fetched commit in that order,
whose message names both ids (`Merge: {remote} into {local}`), and whose
tree is the merged tree; the reference head points to moves to that commit
and the working tree is checked out to match it. -/
theorem merge_commit_spec (repo : Repo) (br hr : String)
    (fetchId localId baseId : Oid) (w : MergeWorld)
    (flags : MergeAnalysisFlags) (lc rc bc : CommitData) (idx : MergeIndex)
    (han : w.analysis = Except.ok flags)
    (hff : flags.isFastForward = false)
    (hn : flags.isNormal = true)
    (hhead : repo.head = some hr)
    (href : alookup hr repo.refs = some localId)
    (hlc : alookup localId repo.commits = some lc)
    (hrc : alookup fetchId repo.commits = some rc)
    (hbase : w.mergeBase localId fetchId = Except.ok baseId)
    (hbc : alookup baseId repo.commits = some bc)
    (hidx : w.mergeTrees bc.tree lc.tree rc.tree = Except.ok idx)
    (hnoconf : idx.hasConflicts = false)
    (hsig : w.signatureResult = Except.ok ())
    (hfresh : alookup w.freshOid repo.commits = none) :
    merge repo br fetchId w
      = Except.ok ({ repo with
          commits := (w.freshOid,
            { parents := [localId, fetchId], tree := idx.writeTree,
              message := mergeCommitMessage fetchId localId })
            :: repo.commits,
          refs := aset hr w.freshOid repo.refs,
          workTree := WorkTree.tree idx.writeTree,
          checkouts := repo.checkouts ++ [CheckoutMode.safe] },
        MergeOutcome.merged w.freshOid) := by
  simp [merge, resolveHead, normal_merge, commitOnHead, checkout_head, han,
    hff, hn, hhead, href, hlc, hrc, hbase, hbc, hidx, hnoconf, hsig,
    alookup_aset_self, alookup]

/-- Concrete clean merge discharging the hypotheses of
`merge_commit_spec`: two branches diverged from commit 1 merge without
conflicts into the fresh commit 7 with parents `[2, 3]` and tree 40. -/
theorem merge_commit_spec_witness :
    merge
      { commits := [(1, { parents := [], tree := 10, message := "init" }),
                    (2, { parents := [1], tree := 20, message := "local" }),
                    (3, { parents := [1], tree := 30, message := "remote" })],
        refs := [("refs/heads/main", 2)],
        head := some "refs/heads/main",
        workTree := WorkTree.tree 20,
        checkouts := [] }
      "main" 3
      { analysis := Except.ok { isFastForward := false, isNormal := true },
        mergeBase := fun _ _ => Except.ok 1,
        mergeTrees := fun _ _ _ =>
          Except.ok { hasConflicts := false, writeTree := 40 },
        signatureResult := Except.ok (),
        freshOid := 7 }
      = Except.ok
          ({ commits := [(7, { parents := [2, 3], tree := 40,
                               message := "Merge: 3 into 2" }),
                         (1, { parents := [], tree := 10, message := "init" }),
                         (2, { parents := [1], tree := 20, message := "local" }),
                         (3, { parents := [1], tree := 30, message := "remote" })],
             refs := [("refs/heads/main", 7)],
             head := some "refs/heads/main",
             workTree := WorkTree.tree 40,
             checkouts := [CheckoutMode.safe] },
           MergeOutcome.merged 7) := by
  exact merge_commit_spec
    { commits := [(1, { parents := [], tree := 10, message := "init" }),
                  (2, { parents := [1], tree := 20, message := "local" }),
                  (3, { parents := [1], tree := 30, message := "remote" })],
      refs := [("refs/heads/main", 2)],
      head := some "refs/heads/main",
      workTree := WorkTree.tree 20,
      checkouts := [] }
    "main" "refs/heads/main" 3 2 1
    { analysis := Except.ok { isFastForward := false, isNormal := true },
      mergeBase := fun _ _ => Except.ok 1,
      mergeTrees := fun _ _ _ =>
        Except.ok { hasConflicts := false, writeTree := 40 },
      signatureResult := Except.ok (),
      freshOid := 7 }
    { isFastForward := false, isNormal := true }
    { parents := [1], tree := 20, message := "local" }
    { parents := [1], tree := 30, message := "remote" }
    { parents := [], tree := 10, message := "init" }
    { hasConflicts := false, writeTree := 40 }
    rfl rfl rfl rfl (by decide) (by decide) (by decide) rfl (by decide)
    rfl rfl rfl (by decide)

/-- C5: for a provider with Token auth and both variable-name fields
populated, `is_valid_cred` computes exactly the conjunction of the two
sentinel-prefix checks, a username/password strategy is installed if and
only if it holds, and when it does not hold no strategy is installed and a
clone run reads no environment variable at all. -/
theorem token_strategy_iff (p : Provider) (u pw : String)
    (hty : p.auth.type = AuthType.Token)
    (hu : p.auth.username = some u)
    (hp : p.auth.password = some pw) :
    p.auth.is_valid_cred
      = PanicOr.ok (startsWithChar '_' u && startsWithChar '_' pw)
    ∧ ((∃ s, installStrategy p.auth = PanicOr.ok (some s))
      ↔ (startsWithChar '_' u && startsWithChar '_' pw) = true)
    ∧ ((startsWithChar '_' u && startsWithChar '_' pw) = false →
      installStrategy p.auth = PanicOr.ok none
      ∧ ∀ (env : Env) (w : CloneWorld),
          clone p env w = (PanicOr.ok (), [])) := by
  have hvalid : p.auth.is_valid_cred
      = PanicOr.ok (startsWithChar '_' u && startsWithChar '_' pw) := by
    cases hsu : startsWithChar '_' u <;>
      simp [Auth.is_valid_cred, hu, hp, hsu]
  refine ⟨hvalid, ?_, ?_⟩
  · cases hb : startsWithChar '_' u && startsWithChar '_' pw <;>
      simp [installStrategy, hty, hvalid, hb]
  · intro hb
    have hinst : installStrategy p.auth = PanicOr.ok none := by
      simp [installStrategy, hty, hvalid, hb]
    exact ⟨hinst, fun env w => by simp [clone, hinst]⟩

/-- Concrete invalid Token credentials discharging the hypotheses of
`token_strategy_iff`: the password variable name lacks the sentinel
prefix, so a clone run with a challenging transport installs no strategy
and reads no environment variable. -/
theorem token_strategy_iff_witness :
    clone
      { name := "w5", url := "https://example/r.git", branch := "main",
        sync_dir := "/tmp/w5",
        auth := { type := AuthType.Token, username := some "_USER",
                  password := some "PASS", path := none } }
      (fun _ => some "value")
      { challenges := true, usernameFromUrl := none,
        cloneOpResult := Except.ok () }
      = (PanicOr.ok (), []) := by
  have h := token_strategy_iff
    { name := "w5", url := "https://example/r.git", branch := "main",
      sync_dir := "/tmp/w5",
      auth := { type := AuthType.Token, username := some "_USER",
                password := some "PASS", path := none } }
    "_USER" "PASS" rfl rfl rfl
  exact (h.2.2 (by decide)).2 (fun _ => some "value")
    { challenges := true, usernameFromUrl := none,
      cloneOpResult := Except.ok () }

/-- C6, failing input: a provider with valid Token credentials whose
referenced environment variable is unset. Installation reads nothing and a
challenge-free run reads nothing (resolution happens only at challenge
time), but at challenge time the code panics through
`env::var(..).unwrap()` instead of failing with a recoverable
`MissingCredentialEnvVar` error, and `get_username` itself panics. -/
theorem missing_env_var_panics :
    Auth.get_username
      { type := AuthType.Token, username := some "_USER",
        password := some "_PASS", path := none } (fun _ => none)
      = PanicOr.panicked
    ∧ clone
        { name := "c6", url := "https://example/r.git", branch := "main",
          sync_dir := "/tmp/c6",
          auth := { type := AuthType.Token, username := some "_USER",
                    password := some "_PASS", path := none } }
        (fun _ => none)
        { challenges := false, usernameFromUrl := none,
          cloneOpResult := Except.ok () }
        = (PanicOr.ok (), [])
    ∧ clone
        { name := "c6", url := "https://example/r.git", branch := "main",
          sync_dir := "/tmp/c6",
          auth := { type := AuthType.Token, username := some "_USER",
                    password := some "_PASS", path := none } }
        (fun _ => none)
        { challenges := true, usernameFromUrl := none,
          cloneOpResult := Except.ok () }
        = (PanicOr.panicked, ["_USER"]) := by
  refine ⟨rfl, ?_, ?_⟩ <;> rfl

/-- C7, failing input: an `Auth` whose `path` and `password` fields differ.
The `config.rs` revision of `get_ssh_path` (the one `git.rs` compiles
against) returns the `path` field and the installed SSH strategy uses that
key path, but the revision inlined in `main.rs` returns the `password`
field, so the two revisions disagree. -/
theorem ssh_path_revisions_differ :
    Auth.get_ssh_path
      { type := AuthType.Ssh, username := none, password := some "hunter2",
        path := some "/home/u/.ssh/id_rsa" }
      = PanicOr.ok "/home/u/.ssh/id_rsa"
    ∧ Auth.get_ssh_path_main
        { type := AuthType.Ssh, username := none, password := some "hunter2",
          path := some "/home/u/.ssh/id_rsa" }
        = PanicOr.ok "hunter2"
    ∧ Auth.get_ssh_path
        { type := AuthType.Ssh, username := none, password := some "hunter2",
          path := some "/home/u/.ssh/id_rsa" }
      ≠ Auth.get_ssh_path_main
        { type := AuthType.Ssh, username := none, password := some "hunter2",
          path := some "/home/u/.ssh/id_rsa" }
    ∧ runChallenge
        (CredStrategy.sshCreds
          { type := AuthType.Ssh, username := none, password := some "hunter2",
            path := some "/home/u/.ssh/id_rsa" })
        (fun _ => none) (some "git")
      = (PanicOr.ok (Cred.sshKey "git" "/home/u/.ssh/id_rsa"), []) := by
  refine ⟨rfl, rfl, by decide, rfl⟩

/-- The two-provider fixture for the propagation claims: provider `A` has
an existing `sync_dir` directory whose repository fails to open, provider
`B` is a clean clone target. -/
def provA : Provider :=
  { name := "A", url := "https://example/a.git", branch := "main",
    sync_dir := "/repos/a",
    auth := { type := AuthType.Public, username := none, password := none,
              path := none } }

def provB : Provider :=
  { name := "B", url := "https://example/b.git", branch := "main",
    sync_dir := "/repos/b",
    auth := { type := AuthType.Public, username := none, password := none,
              path := none } }

/-- Filesystem of the fixture: only `/repos/a` exists, as a directory. -/
def fsC8 : Fs :=
  { pathExists := fun s => s == "/repos/a", isDir := fun s => s == "/repos/a" }

/-- External git answers of the fixture: `Repository::open` fails. -/
def pwBad : PullWorld :=
  { openResult := Except.error 1, findRemoteOk := true,
    fetchResult := Except.error 1 }

def mwIdle : MergeWorld :=
  { analysis := Except.ok { isFastForward := false, isNormal := false },
    mergeBase := fun _ _ => Except.error 0,
    mergeTrees := fun _ _ _ => Except.error 0,
    signatureResult := Except.ok (), freshOid := 0 }

def cwIdle : CloneWorld :=
  { challenges := false, usernameFromUrl := none,
    cloneOpResult := Except.ok () }

/-- One provider synchronization of the fixture, as `main` invokes it. -/
def runC8 (q : Provider) : PanicOr Unit :=
  (download q (fun _ => none) fsC8 pwBad mwIdle cwIdle).2

/-- C8, failing input: provider `A`'s repository-open failure panics inside
`pull`, the panic aborts the whole run (`mainRun` ends panicked), and the
loop never reaches provider `B` — even though `B` on its own would
synchronize fine. -/
theorem provider_failure_aborts_run :
    runC8 provA = PanicOr.panicked
    ∧ runC8 provB = PanicOr.ok ()
    ∧ runLoopTrace runC8 [provA, provB] = ["A"]
    ∧ runLoop runC8 [provA, provB] = PanicOr.panicked
    ∧ mainRun (some { providers := [provA, provB] }) runC8
      = PanicOr.panicked := by
  refine ⟨rfl, rfl, rfl, rfl, rfl⟩

/-- C9, failing input: a missing, empty, or unparsable configuration file
leaves the loaded config `None` (as the claim says), but `main`'s `None`
arm is `todo!()`, so the run panics instead of terminating normally with
zero providers. -/
theorem missing_config_todo_panics :
    load_config (Except.error 2) (fun _ => Except.error 0) none = none
    ∧ load_config (Except.ok "") (fun _ => Except.error 0) none = none
    ∧ load_config (Except.ok "bad yaml") (fun _ => Except.error 0) none = none
    ∧ mainRun none runC8 = PanicOr.panicked := by
  refine ⟨rfl, rfl, rfl, rfl⟩

end Glone
